import Mathlib

/-!
Verification of the result aggregation and deduplication pipeline of the
ArtScraper repository (`src/app.py`), as a shallow embedding in Lean 4.

The embedded functions are:
  * `search_similar_images_serpapi`  (app.py, lines 65-108)
  * `search_similar_images_toolhouse` (app.py, lines 111-184)
  * `crawl_image_sites_toolhouse`    (app.py, lines 187-239)
  * `combine_search_results`         (app.py, lines 242-280)

Modelling conventions:
  * Python dicts produced by the adapters always carry the same keys, so
    `MatchRecord`, `ProviderResult` and `AggregatedResult` are structures;
    a key that may be absent (`additional_info`, `error`) is an `Option`.
  * Network I/O is an injected input: each `requests.post` call site is a
    value of type `Except String (HttpResponse α)`, where `Except.error e`
    models the call raising an exception with message `str(e) = e`, and the
    `json` field of `HttpResponse` models `response.json()`, which may
    itself raise.  The serpapi code never reads `response.status_code`;
    the field is present in the model but unused there, exactly as in the
    source.
  * `os.getenv` results are `Option String`; Python truthiness of the key
    (`if not SERPAPI_KEY`) is `falsyKey`.
  * Python's `list.sort(key=...)` is a stable sort; it is modelled by
    Mathlib's `List.insertionSort`, which is stable, with the relation
    "sort_key a ≤ sort_key b".
-/

/-- One discovered similar image, as built by the adapters in `app.py`.
`additional_info` is `none` when the Python dict has no such key
(serpapi and crawler records) and `some` when it does (toolhouse primary
records, where it is always populated via `result.get('metadata', {})`). -/
structure MatchRecord where
  title : String
  source : String
  thumbnail : String
  link : String
  similarity : String
  search_engine : String
  additional_info : Option (List (String × String))
deriving DecidableEq, Repr

/-- The normalized output of one adapter (`app.py` returns dicts with keys
`matches`, `total_found`, `source`, and sometimes `error`). -/
structure ProviderResult where
  «matches» : List MatchRecord
  total_found : Nat
  source : String
  error : Option String
deriving DecidableEq, Repr

/-- The dict returned by `combine_search_results` (app.py lines 274-280). -/
structure AggregatedResult where
  «matches» : List MatchRecord
  total_found : Nat
  serpapi_count : Nat
  toolhouse_count : Nat
  errors : List String
deriving DecidableEq, Repr

/-- An HTTP response as observed by the code: a status code and the result
of calling `.json()` on it (which may raise, modelled by `Except.error`). -/
structure HttpResponse (α : Type) where
  status_code : Nat
  json : Except String α

/-- Python truthiness test `if not KEY` on the result of `os.getenv`:
falsy when the variable is unset (`none`) or set to the empty string. -/
def falsyKey : Option String → Bool
  | none => true
  | some s => s == ""

/-! ### The serpapi adapter (app.py lines 65-108) -/

/-- One entry of `data['image_results']`; each field is read with
`result.get(field, default)`, so each is optional. -/
structure SerpItem where
  title : Option String
  source : Option String
  thumbnail : Option String
  link : Option String
deriving DecidableEq

/-- The parsed serpapi JSON body; `image_results` is `none` when
`'image_results' in data` is false. -/
structure SerpData where
  image_results : Option (List SerpItem)
deriving DecidableEq

/-- Normalization of one serpapi entry (app.py lines 87-94). -/
def serpMatch (r : SerpItem) : MatchRecord :=
  { title := r.title.getD "No title"
    source := r.source.getD "Unknown source"
    thumbnail := r.thumbnail.getD ""
    link := r.link.getD ""
    similarity := "High"
    search_engine := "Google (SerpAPI)"
    additional_info := none }

/-- `search_similar_images_serpapi` (app.py lines 65-108).  `post` is the
outcome of `requests.post('https://serpapi.com/search', ...)`: an exception
(also covering the earlier `open(image_path)`), or a response whose
`.json()` may in turn raise.  Note the code never inspects
`status_code`. -/
def search_similar_images_serpapi (SERPAPI_KEY : Option String)
    (post : Except String (HttpResponse SerpData)) : ProviderResult :=
  if falsyKey SERPAPI_KEY then
    { «matches» := [], total_found := 0, source := "serpapi", error := none }
  else
    match post with
    | .error e =>
      { «matches» := [], total_found := 0, source := "serpapi", error := some e }
    | .ok resp =>
      match resp.json with
      | .error e =>
        { «matches» := [], total_found := 0, source := "serpapi", error := some e }
      | .ok data =>
        let «matches» :=
          match data.image_results with
          | some results => (results.take 5).map serpMatch
          | none => []
        { «matches» := «matches», total_found := «matches».length,
          source := "serpapi", error := none }

/-! ### The toolhouse adapter (app.py lines 111-184) and its crawler
(lines 187-239) -/

/-- One entry of `data['results']['matches']` in the toolhouse response. -/
structure ToolItem where
  title : Option String
  domain : Option String
  thumbnail_url : Option String
  page_url : Option String
  similarity_score : Option String
  found_via : Option String
  metadata : Option (List (String × String))
deriving DecidableEq

/-- The `results` object of the toolhouse response; `matches` is `none`
when `'matches' in data['results']` is false. -/
structure ToolResults where
  «matches» : Option (List ToolItem)
deriving DecidableEq

/-- The parsed toolhouse JSON body; `results` is `none` when
`'results' in data` is false. -/
structure ToolData where
  results : Option ToolResults
deriving DecidableEq

/-- Normalization of one toolhouse entry (app.py lines 158-166). -/
def toolMatch (r : ToolItem) : MatchRecord :=
  { title := r.title.getD "No title"
    source := r.domain.getD "Unknown source"
    thumbnail := r.thumbnail_url.getD ""
    link := r.page_url.getD ""
    similarity := r.similarity_score.getD "Medium"
    search_engine := r.found_via.getD "Toolhouse Scraper"
    additional_info := some (r.metadata.getD []) }

/-- One entry of `data['results']['similar_images']` in a crawl response. -/
structure CrawlItem where
  alt_text : Option String
  thumbnail_url : Option String
  page_url : Option String
  similarity_score : Option String
deriving DecidableEq

/-- The `results` object of a crawl response. -/
structure CrawlResults where
  similar_images : Option (List CrawlItem)
deriving DecidableEq

/-- The parsed crawl JSON body. -/
structure CrawlData where
  results : Option CrawlResults
deriving DecidableEq

/-- Normalization of one crawled image (app.py lines 227-234). -/
def crawlMatch (site : String) (img : CrawlItem) : MatchRecord :=
  { title := img.alt_text.getD ("Image from " ++ site)
    source := site
    thumbnail := img.thumbnail_url.getD ""
    link := img.page_url.getD ""
    similarity := img.similarity_score.getD "Medium"
    search_engine := "Toolhouse Crawler (" ++ site ++ ")"
    additional_info := none }

/-- The fixed list of sites crawled for supplementary matches
(app.py lines 191-197). -/
def target_sites : List String :=
  ["pinterest.com", "flickr.com", "unsplash.com", "shutterstock.com",
   "getty images.com"]

/-- The `for site in target_sites` loop of `crawl_image_sites_toolhouse`.
An exception at a `requests.post` or `.json()` call aborts the loop (the
surrounding `try` catches it and the matches accumulated so far are
returned); a non-200 status merely skips the site. -/
def crawlLoop (posts : String → Except String (HttpResponse CrawlData)) :
    List String → List MatchRecord
  | [] => []
  | site :: rest =>
    match posts site with
    | .error _ => []
    | .ok resp =>
      if resp.status_code == 200 then
        match resp.json with
        | .error _ => []
        | .ok data =>
          let here :=
            match data.results with
            | some rs =>
              match rs.similar_images with
              | some imgs => (imgs.take 2).map (crawlMatch site)
              | none => []
            | none => []
          here ++ crawlLoop posts rest
      else
        crawlLoop posts rest

/-- `crawl_image_sites_toolhouse` (app.py lines 187-239): crawl each target
site, capped at 2 matches per site; all failures are swallowed. -/
def crawl_image_sites_toolhouse
    (posts : String → Except String (HttpResponse CrawlData)) :
    List MatchRecord :=
  crawlLoop posts target_sites

/-- `search_similar_images_toolhouse` (app.py lines 111-184).  `post` is
the outcome of the primary `requests.post` (an exception also covers the
earlier file read / base64 step); `crawl_posts` gives the outcome of each
secondary crawl request. -/
def search_similar_images_toolhouse (TOOLHOUSE_API_KEY : Option String)
    (post : Except String (HttpResponse ToolData))
    (crawl_posts : String → Except String (HttpResponse CrawlData)) :
    ProviderResult :=
  if falsyKey TOOLHOUSE_API_KEY then
    { «matches» := [], total_found := 0, source := "toolhouse", error := none }
  else
    match post with
    | .error e =>
      { «matches» := [], total_found := 0, source := "toolhouse", error := some e }
    | .ok resp =>
      if resp.status_code != 200 then
        { «matches» := [], total_found := 0, source := "toolhouse",
          error := some ("Toolhouse API error: " ++ toString resp.status_code) }
      else
        match resp.json with
        | .error e =>
          { «matches» := [], total_found := 0, source := "toolhouse",
            error := some e }
        | .ok data =>
          let primary :=
            match data.results with
            | some rs =>
              match rs.«matches» with
              | some ms => (ms.take 5).map toolMatch
              | none => []
            | none => []
          let «matches» := primary ++ crawl_image_sites_toolhouse crawl_posts
          { «matches» := «matches», total_found := «matches».length,
            source := "toolhouse", error := none }

/-! ### The aggregator `combine_search_results` (app.py lines 242-280) -/

/-- The ranking used by `sort_key` inside `combine_search_results`
(app.py lines 263-270).  The records built by the adapters always carry a
`similarity` key, so the `match.get('similarity', 'Low')` default never
fires; an absent key would rank as `'Low'`, i.e. 2, anyway. -/
def sort_key (m : MatchRecord) : Nat :=
  if m.similarity = "High" then 0
  else if m.similarity = "Medium" then 1
  else 2

/-- The sort relation corresponding to Python's stable
`all_matches.sort(key=sort_key)`. -/
def simLE (a b : MatchRecord) : Prop := sort_key a ≤ sort_key b

instance : DecidableRel simLE := fun a b =>
  inferInstanceAs (Decidable (sort_key a ≤ sort_key b))

/-- One `for match in results.get('matches', [])` loop of
`combine_search_results` (app.py lines 249-253 and 256-260): `seen` is the
`seen_urls` set (modelled as a list queried only by membership), `acc` is
the `all_matches` list being appended to. -/
def addProviderMatches (seen : List String) (acc : List MatchRecord) :
    List MatchRecord → List String × List MatchRecord
  | [] => (seen, acc)
  | m :: rest =>
    if m.link ≠ "" ∧ ¬ seen.contains m.link then
      addProviderMatches (m.link :: seen) (acc ++ [m]) rest
    else
      addProviderMatches seen acc rest

/-- The value of `all_matches` after both provider loops and before the
sort (app.py lines 245-260). -/
def merged_matches (s t : ProviderResult) : List MatchRecord :=
  let step1 := addProviderMatches [] [] s.«matches»
  (addProviderMatches step1.1 step1.2 t.«matches»).2

/-- `combine_search_results` (app.py lines 242-280). -/
def combine_search_results (s t : ProviderResult) : AggregatedResult :=
  let all_matches := merged_matches s t
  let sorted := all_matches.insertionSort simLE
  { «matches» := sorted
    total_found := sorted.length
    serpapi_count := s.total_found
    toolhouse_count := t.total_found
    errors := [] }


/-! ### Concrete fixtures (spec scenarios and witnesses) -/

/-- Scenario A, serpapi record with link "a" and similarity High. -/
def scnA_serp_a : MatchRecord :=
  { title := "serp page a", source := "site-a", thumbnail := "",
    link := "a", similarity := "High", search_engine := "Google (SerpAPI)",
    additional_info := none }

/-- Scenario A, serpapi record with link "b" and similarity Low. -/
def scnA_serp_b : MatchRecord :=
  { title := "serp page b", source := "site-b", thumbnail := "",
    link := "b", similarity := "Low", search_engine := "Google (SerpAPI)",
    additional_info := none }

/-- Scenario A, toolhouse record with link "a" and similarity Medium. -/
def scnA_tool_a : MatchRecord :=
  { title := "tool page a", source := "domain-a", thumbnail := "",
    link := "a", similarity := "Medium", search_engine := "Toolhouse Scraper",
    additional_info := some [] }

/-- Scenario A, toolhouse record with link "c" and similarity High. -/
def scnA_tool_c : MatchRecord :=
  { title := "tool page c", source := "domain-c", thumbnail := "",
    link := "c", similarity := "High", search_engine := "Toolhouse Scraper",
    additional_info := some [] }

/-- Scenario A, provider P1 (serpapi). -/
def scnA_P1 : ProviderResult :=
  { «matches» := [scnA_serp_a, scnA_serp_b], total_found := 2,
    source := "serpapi", error := none }

/-- Scenario A, provider P2 (toolhouse). -/
def scnA_P2 : ProviderResult :=
  { «matches» := [scnA_tool_a, scnA_tool_c], total_found := 2,
    source := "toolhouse", error := none }

/-- A record with an empty link (scenario D). -/
def emptyLink1 : MatchRecord :=
  { title := "untitled one", source := "site-1", thumbnail := "",
    link := "", similarity := "High", search_engine := "Google (SerpAPI)",
    additional_info := none }

/-- A second record with an empty link from the same provider. -/
def emptyLink2 : MatchRecord :=
  { title := "untitled two", source := "site-2", thumbnail := "",
    link := "", similarity := "Medium", search_engine := "Google (SerpAPI)",
    additional_info := none }

/-- A provider result whose two matches both have an empty link. -/
def emptyLinkProvider : ProviderResult :=
  { «matches» := [emptyLink1, emptyLink2], total_found := 2,
    source := "serpapi", error := none }

/-- An empty provider result. -/
def emptyProviderOther : ProviderResult :=
  { «matches» := [], total_found := 0, source := "toolhouse", error := none }

/-- Scenario C: the serpapi provider failed with a network error. -/
def serpFailureResult : ProviderResult :=
  { «matches» := [], total_found := 0, source := "serpapi",
    error := some "network error" }

/-- Scenario C: the single toolhouse match with link "x". -/
def xMatch : MatchRecord :=
  { title := "x page", source := "domain-x", thumbnail := "",
    link := "x", similarity := "Medium", search_engine := "Toolhouse Scraper",
    additional_info := some [] }

/-- Scenario C: the toolhouse provider succeeded with one match. -/
def toolhouseSingleX : ProviderResult :=
  { «matches» := [xMatch], total_found := 1, source := "toolhouse",
    error := none }

/-- A sample raw serpapi entry. -/
def serpItemSample : SerpItem :=
  { title := some "sample", source := none, thumbnail := none,
    link := some "http://sample" }

/-! ### Characterization of the merge loop

`addProviderMatches` threads the `all_matches` accumulator exactly as the
Python loop does; `dedupKeep` and `seenAfter` compute the appended records
and the final `seen_urls` set separately, which is more convenient in
proofs. -/

/-- The records a run of the merge loop appends to `all_matches`. -/
def dedupKeep (seen : List String) : List MatchRecord → List MatchRecord
  | [] => []
  | m :: rest =>
    if m.link ≠ "" ∧ ¬ seen.contains m.link then
      m :: dedupKeep (m.link :: seen) rest
    else
      dedupKeep seen rest

/-- The `seen_urls` set after a run of the merge loop. -/
def seenAfter (seen : List String) : List MatchRecord → List String
  | [] => seen
  | m :: rest =>
    if m.link ≠ "" ∧ ¬ seen.contains m.link then
      seenAfter (m.link :: seen) rest
    else
      seenAfter seen rest

theorem addProviderMatches_eq (ms : List MatchRecord) (seen : List String)
    (acc : List MatchRecord) :
    addProviderMatches seen acc ms = (seenAfter seen ms, acc ++ dedupKeep seen ms) := by
  induction ms generalizing seen acc with
  | nil => simp [addProviderMatches, seenAfter, dedupKeep]
  | cons m rest ih =>
    by_cases h : m.link ≠ "" ∧ ¬ seen.contains m.link
    · simp only [addProviderMatches, seenAfter, dedupKeep, if_pos h, ih]
      simp
    · simp only [addProviderMatches, seenAfter, dedupKeep, if_neg h, ih]

theorem merged_matches_eq (s t : ProviderResult) :
    merged_matches s t =
      dedupKeep [] s.«matches»
        ++ dedupKeep (seenAfter [] s.«matches») t.«matches» := by
  simp [merged_matches, addProviderMatches_eq]

theorem dedupKeep_sublist (ms : List MatchRecord) :
    ∀ seen, List.Sublist (dedupKeep seen ms) ms := by
  induction ms with
  | nil => intro seen; simp [dedupKeep]
  | cons m rest ih =>
    intro seen
    by_cases h : m.link ≠ "" ∧ ¬ seen.contains m.link
    · rw [dedupKeep, if_pos h]
      exact (ih (m.link :: seen)).cons₂ m
    · rw [dedupKeep, if_neg h]
      exact (ih seen).cons m

theorem dedupKeep_link_ne (ms : List MatchRecord) :
    ∀ seen m, m ∈ dedupKeep seen ms → m.link ≠ "" := by
  induction ms with
  | nil => intro seen m hm; simp [dedupKeep] at hm
  | cons a rest ih =>
    intro seen m hm
    by_cases h : a.link ≠ "" ∧ ¬ seen.contains a.link
    · rw [dedupKeep, if_pos h] at hm
      rcases List.mem_cons.mp hm with rfl | hm
      · exact h.1
      · exact ih _ m hm
    · rw [dedupKeep, if_neg h] at hm
      exact ih seen m hm

theorem filter_dedupKeep_of_seen (l : String) (ms : List MatchRecord) :
    ∀ seen, seen.contains l = true →
      (dedupKeep seen ms).filter (fun m => m.link == l) = [] := by
  induction ms with
  | nil => intro seen _; simp [dedupKeep]
  | cons m rest ih =>
    intro seen hseen
    by_cases h : m.link ≠ "" ∧ ¬ seen.contains m.link
    · have hml : ¬ m.link = l := fun he => h.2 (he ▸ hseen)
      have hb : ¬ (m.link == l) = true := by
        simpa using hml
      have hseen' : (m.link :: seen).contains l = true := by
        rw [List.contains_cons, hseen, Bool.or_true]
      rw [dedupKeep, if_pos h,
        @List.filter_cons_of_neg _ (fun m => m.link == l) m
          (dedupKeep (m.link :: seen) rest) hb]
      exact ih (m.link :: seen) hseen'
    · rw [dedupKeep, if_neg h]
      exact ih seen hseen

theorem filter_dedupKeep_of_not_seen (l : String) (hl : l ≠ "")
    (ms : List MatchRecord) :
    ∀ seen, seen.contains l = false →
      (dedupKeep seen ms).filter (fun m => m.link == l) =
        (ms.find? (fun m => m.link == l)).toList := by
  induction ms with
  | nil => intro seen _; simp [dedupKeep]
  | cons m rest ih =>
    intro seen hseen
    by_cases h : m.link ≠ "" ∧ ¬ seen.contains m.link
    · rw [dedupKeep, if_pos h]
      by_cases hml : m.link = l
      · have hb : (m.link == l) = true := by simpa using hml
        rw [@List.filter_cons_of_pos _ (fun m => m.link == l) m
            (dedupKeep (m.link :: seen) rest) hb,
          @List.find?_cons_of_pos _ (fun m => m.link == l) m rest hb]
        have hcontains : (m.link :: seen).contains l = true := by
          rw [List.contains_cons]
          have : (l == m.link) = true := by simpa using hml.symm
          rw [this, Bool.true_or]
        rw [filter_dedupKeep_of_seen l rest (m.link :: seen) hcontains]
        rfl
      · have hb : ¬ (m.link == l) = true := by simpa using hml
        rw [@List.filter_cons_of_neg _ (fun m => m.link == l) m
            (dedupKeep (m.link :: seen) rest) hb,
          @List.find?_cons_of_neg _ (fun m => m.link == l) m rest hb]
        have hcontains : (m.link :: seen).contains l = false := by
          rw [List.contains_cons, hseen, Bool.or_false]
          have hlm : l ≠ m.link := fun he => hml he.symm
          simpa using hlm
        exact ih (m.link :: seen) hcontains
    · have hml : ¬ m.link = l := by
        intro he
        rcases not_and_or.mp h with h1 | h2
        · exact hl (by rw [← he]; simpa using h1)
        · rw [not_not] at h2
          rw [he, hseen] at h2
          simp at h2
      have hb : ¬ (m.link == l) = true := by simpa using hml
      rw [dedupKeep, if_neg h, @List.find?_cons_of_neg _ (fun m => m.link == l) m rest hb]
      exact ih seen hseen

theorem seenAfter_mono (ms : List MatchRecord) (l : String) :
    ∀ seen, seen.contains l = true → (seenAfter seen ms).contains l = true := by
  induction ms with
  | nil => intro seen h; simpa [seenAfter] using h
  | cons m rest ih =>
    intro seen hseen
    by_cases h : m.link ≠ "" ∧ ¬ seen.contains m.link
    · rw [seenAfter, if_pos h]
      exact ih (m.link :: seen) (by rw [List.contains_cons, hseen, Bool.or_true])
    · rw [seenAfter, if_neg h]
      exact ih seen hseen

theorem seenAfter_contains_of_mem (ms : List MatchRecord) (m : MatchRecord)
    (hm : m ∈ ms) (hl : m.link ≠ "") :
    ∀ seen, (seenAfter seen ms).contains m.link = true := by
  induction ms with
  | nil => simp at hm
  | cons a rest ih =>
    intro seen
    rcases List.mem_cons.mp hm with rfl | hmem
    · by_cases h : m.link ≠ "" ∧ ¬ seen.contains m.link
      · rw [seenAfter, if_pos h]
        refine seenAfter_mono rest m.link (m.link :: seen) ?_
        rw [List.contains_cons]
        simp
      · have hc : seen.contains m.link = true := by
          rcases not_and_or.mp h with h1 | h2
          · exact absurd hl (by simpa using h1)
          · simpa using h2
        rw [seenAfter, if_neg h]
        exact seenAfter_mono rest m.link seen hc
    · by_cases h : a.link ≠ "" ∧ ¬ seen.contains a.link
      · rw [seenAfter, if_pos h]
        exact ih hmem (a.link :: seen)
      · rw [seenAfter, if_neg h]
        exact ih hmem seen

/-! ### The stable tier sort

Python's `list.sort` is stable; `List.insertionSort` is a stable sort, and
for the three-valued key `sort_key` a stable sort is exactly the
concatenation of the three tiers in input order, which is proved here. -/

theorem orderedInsert_eq_cons (a : MatchRecord) (xs : List MatchRecord)
    (h : ∀ b ∈ xs, sort_key a ≤ sort_key b) :
    List.orderedInsert simLE a xs = a :: xs := by
  cases xs with
  | nil => rfl
  | cons b t =>
    rw [List.orderedInsert, if_pos (show simLE a b from h b (List.mem_cons_self b t))]

theorem orderedInsert_append (a : MatchRecord) (xs ys : List MatchRecord)
    (h : ∀ b ∈ xs, ¬ simLE a b) :
    List.orderedInsert simLE a (xs ++ ys) = xs ++ List.orderedInsert simLE a ys := by
  induction xs with
  | nil => rfl
  | cons b t ih =>
    rw [List.cons_append, List.orderedInsert, if_neg (h b (List.mem_cons_self b t)),
      ih (fun c hc => h c (List.mem_cons_of_mem b hc)), List.cons_append]

theorem insertionSort_simLE_buckets (l : List MatchRecord) :
    l.insertionSort simLE =
      l.filter (fun m => m.similarity == "High")
        ++ (l.filter (fun m => m.similarity == "Medium")
        ++ l.filter (fun m => m.similarity != "High" && m.similarity != "Medium")) := by
  induction l with
  | nil => rfl
  | cons a l ih =>
    have hH : ∀ b ∈ l.filter (fun m => m.similarity == "High"), sort_key b = 0 := by
      intro b hb
      have hb2 := (List.mem_filter.mp hb).2
      simp only [beq_iff_eq] at hb2
      simp [sort_key, hb2]
    have hM : ∀ b ∈ l.filter (fun m => m.similarity == "Medium"), sort_key b = 1 := by
      intro b hb
      have hb2 := (List.mem_filter.mp hb).2
      simp only [beq_iff_eq] at hb2
      simp [sort_key, hb2]
    have hO : ∀ b ∈ l.filter
        (fun m => m.similarity != "High" && m.similarity != "Medium"), sort_key b = 2 := by
      intro b hb
      have hb2 := (List.mem_filter.mp hb).2
      simp only [bne_iff_ne, Bool.and_eq_true, ne_eq] at hb2
      simp [sort_key, hb2.1, hb2.2]
    rw [List.insertionSort, ih]
    by_cases h1 : a.similarity = "High"
    · have hka : sort_key a = 0 := by simp [sort_key, h1]
      have hb0 : (a.similarity == "High") = true := by rw [h1]; decide
      have hb1 : (a.similarity == "Medium") = false := by rw [h1]; decide
      have hb2 : (a.similarity != "High" && a.similarity != "Medium") = false := by
        rw [h1]; decide
      rw [orderedInsert_eq_cons a _ (fun b _ => by rw [hka]; exact Nat.zero_le _)]
      simp only [List.filter_cons, hb0, hb1, hb2, if_true, if_false, Bool.false_eq_true,
        List.cons_append]
    · by_cases h2 : a.similarity = "Medium"
      · have hka : sort_key a = 1 := by simp [sort_key, h1, h2]
        have hb0 : (a.similarity == "High") = false := by rw [h2]; decide
        have hb1 : (a.similarity == "Medium") = true := by rw [h2]; decide
        have hb2 : (a.similarity != "High" && a.similarity != "Medium") = false := by
          rw [h2]; decide
        rw [orderedInsert_append a _ _ (fun b hb => by
          have hk := hH b hb
          simp [simLE, hka, hk])]
        rw [orderedInsert_eq_cons a _ (fun b hb => by
          rcases List.mem_append.mp hb with hb | hb
          · rw [hka, hM b hb]
          · rw [hka, hO b hb]; omega)]
        simp only [List.filter_cons, hb0, hb1, hb2, if_true, if_false, Bool.false_eq_true,
          List.cons_append]
      · have hka : sort_key a = 2 := by simp [sort_key, h1, h2]
        have hb0 : (a.similarity == "High") = false := by
          simpa using h1
        have hb1 : (a.similarity == "Medium") = false := by
          simpa using h2
        have hb2 : (a.similarity != "High" && a.similarity != "Medium") = true := by
          simp [h1, h2]
        rw [orderedInsert_append a _ _ (fun b hb => by
          have hk := hH b hb
          simp [simLE, hka, hk])]
        rw [orderedInsert_append a _ _ (fun b hb => by
          have hk := hM b hb
          simp [simLE, hka, hk])]
        rw [orderedInsert_eq_cons a _ (fun b hb => by
          rw [hka, hO b hb])]
        simp only [List.filter_cons, hb0, hb1, hb2, if_true, if_false, Bool.false_eq_true,
          List.cons_append]

/-! ### Small definitional facts about `combine_search_results` -/

theorem combine_matches_def (s t : ProviderResult) :
    (combine_search_results s t).«matches» =
      (merged_matches s t).insertionSort simLE := rfl

theorem combine_total_def (s t : ProviderResult) :
    (combine_search_results s t).total_found =
      ((merged_matches s t).insertionSort simLE).length := rfl

theorem filter_empty_link_dedupKeep (ms : List MatchRecord) (seen : List String) :
    (dedupKeep seen ms).filter (fun m => m.link == "") = [] := by
  rw [List.filter_eq_nil_iff]
  intro m hm
  simpa using dedupKeep_link_ne ms seen m hm

/-! ### The claims -/

/-- Claim C2: the sequence returned by `combine_search_results` is the
High-similarity records first, then the Medium ones, then all records with
any other similarity value, and within each tier the records keep exactly
the relative order they had after the merge step (stable sort). -/
theorem C2_tier_sort_stable (s t : ProviderResult) :
    (combine_search_results s t).«matches» =
      (merged_matches s t).filter (fun m => m.similarity == "High")
        ++ ((merged_matches s t).filter (fun m => m.similarity == "Medium")
        ++ (merged_matches s t).filter
             (fun m => m.similarity != "High" && m.similarity != "Medium")) := by
  rw [combine_matches_def]
  exact insertionSort_simLE_buckets (merged_matches s t)

/-- Claim C3, counterexample: two records from the same provider share
`link = ""`; contrary to the claim, neither appears in the output of
`combine_search_results` (the output is empty). -/
theorem C3_counterexample :
    emptyLink1 ∈ emptyLinkProvider.«matches»
      ∧ emptyLink2 ∈ emptyLinkProvider.«matches»
      ∧ emptyLink1.link = "" ∧ emptyLink2.link = ""
      ∧ (combine_search_results emptyLinkProvider emptyProviderOther).«matches» = [] := by
  decide

/-- Claim C3 as amended: records with an empty `link` are never
deduplicated because they are dropped outright — no record with an empty
link ever appears in the output of `combine_search_results`. -/
theorem C3_amended_empty_links_dropped (s t : ProviderResult) :
    (combine_search_results s t).«matches».filter (fun m => m.link == "") = [] := by
  have hperm : List.Perm
      ((combine_search_results s t).«matches».filter (fun m => m.link == ""))
      ((merged_matches s t).filter (fun m => m.link == "")) := by
    rw [combine_matches_def]
    exact (List.perm_insertionSort simLE (merged_matches s t)).filter _
  have hmerged : (merged_matches s t).filter (fun m => m.link == "") = [] := by
    rw [merged_matches_eq, List.filter_append,
      filter_empty_link_dedupKeep, filter_empty_link_dedupKeep]
    rfl
  rw [hmerged] at hperm
  exact hperm.eq_nil

/-- Claim C4 (code bug), evaluation at the failing input: the serpapi
provider result carries `error = "network error"`, yet the `errors` field
of the aggregate is the hard-coded empty list (`'errors': []` in the
source), not `["network error"]` as the spec requires; matches and
total_found behave as scenario C expects. -/
theorem C4_errors_never_collected :
    serpFailureResult.error = some "network error"
      ∧ (combine_search_results serpFailureResult toolhouseSingleX).errors = []
      ∧ (combine_search_results serpFailureResult toolhouseSingleX).«matches» = [xMatch]
      ∧ (combine_search_results serpFailureResult toolhouseSingleX).total_found = 1 := by
  decide

/-- Claim C6, scenario A: P1 = [a/High, b/Low], P2 = [a/Medium, c/High]
combine to [a/High (the serpapi record), c/High, b/Low] with
`total_found = 3`. -/
theorem C6_scenario_A :
    (combine_search_results scnA_P1 scnA_P2).«matches» =
        [scnA_serp_a, scnA_tool_c, scnA_serp_b]
      ∧ (combine_search_results scnA_P1 scnA_P2).total_found = 3 := by
  decide

/-- Claim C10: aggregation neither invents nor alters records — the output
is exactly the tier sort of the merged list, the output is a permutation
of the merged list, and the merged list is a sublist (order-preserving
selection) of the two inputs' matches concatenated; hence every output
record is one of the input records with all fields unchanged.  (The Python
function also never writes to its arguments: it only reads them and sorts
a freshly built list.) -/
theorem C10_output_selection_of_inputs (s t : ProviderResult) :
    (combine_search_results s t).«matches» = (merged_matches s t).insertionSort simLE
      ∧ List.Perm (combine_search_results s t).«matches» (merged_matches s t)
      ∧ List.Sublist (merged_matches s t) (s.«matches» ++ t.«matches») := by
  refine ⟨rfl, ?_, ?_⟩
  · rw [combine_matches_def]
    exact List.perm_insertionSort simLE _
  · rw [merged_matches_eq]
    exact List.Sublist.append (dedupKeep_sublist _ _) (dedupKeep_sublist _ _)

/-- Claim C1: if a serpapi match and a toolhouse match carry the same
non-empty link `l`, the combined output contains exactly one record with
link `l`, and it is the serpapi one — the first serpapi record carrying
`l`, with all of its fields. -/
theorem C1_dedup_serpapi_first_wins (s t : ProviderResult) (l : String)
    (hl : l ≠ "") (m0 : MatchRecord)
    (hfind : s.«matches».find? (fun m => m.link == l) = some m0)
    (mt : MatchRecord) (_hmt : mt ∈ t.«matches») (_hmtl : mt.link = l) :
    (combine_search_results s t).«matches».filter (fun m => m.link == l) = [m0]
      ∧ m0 ∈ s.«matches» := by
  have hm0mem : m0 ∈ s.«matches» := List.mem_of_find?_eq_some hfind
  have hm0link : m0.link = l := by simpa using List.find?_some hfind
  refine ⟨?_, hm0mem⟩
  have hperm : List.Perm
      ((combine_search_results s t).«matches».filter (fun m => m.link == l))
      ((merged_matches s t).filter (fun m => m.link == l)) := by
    rw [combine_matches_def]
    exact (List.perm_insertionSort simLE (merged_matches s t)).filter _
  have hseen2 : (seenAfter [] s.«matches»).contains l = true := by
    have := seenAfter_contains_of_mem s.«matches» m0 hm0mem
      (by rw [hm0link]; exact hl) []
    rwa [hm0link] at this
  have hmerged : (merged_matches s t).filter (fun m => m.link == l) = [m0] := by
    rw [merged_matches_eq, List.filter_append,
      filter_dedupKeep_of_not_seen l hl s.«matches» [] rfl, hfind,
      filter_dedupKeep_of_seen l t.«matches» (seenAfter [] s.«matches») hseen2]
    rfl
  rw [hmerged] at hperm
  exact List.perm_singleton.mp hperm

/-- Witness for C1, using the scenario-A fixtures with link "a". -/
theorem C1_witness :
    ("a" : String) ≠ ""
      ∧ scnA_P1.«matches».find? (fun m => m.link == "a") = some scnA_serp_a
      ∧ scnA_tool_a ∈ scnA_P2.«matches»
      ∧ scnA_tool_a.link = "a"
      ∧ (combine_search_results scnA_P1 scnA_P2).«matches».filter
          (fun m => m.link == "a") = [scnA_serp_a]
      ∧ scnA_serp_a ∈ scnA_P1.«matches» := by
  have h := C1_dedup_serpapi_first_wins scnA_P1 scnA_P2 "a" (by decide)
    scnA_serp_a (by decide) scnA_tool_a (by decide) rfl
  exact ⟨by decide, by decide, by decide, rfl, h.1, h.2⟩

/-- Claim C5: the aggregate's `total_found` equals the length of its
`matches`, and (for provider results satisfying the ProviderResult
invariant `total_found = length of matches`) is at most the sum of the
inputs' `total_found` values. -/
theorem C5_total_found (s t : ProviderResult)
    (h1 : s.total_found = s.«matches».length)
    (h2 : t.total_found = t.«matches».length) :
    (combine_search_results s t).total_found
        = (combine_search_results s t).«matches».length
      ∧ (combine_search_results s t).total_found
        ≤ s.total_found + t.total_found := by
  constructor
  · rfl
  · rw [combine_total_def, List.length_insertionSort, merged_matches_eq,
      List.length_append, h1, h2]
    exact Nat.add_le_add (dedupKeep_sublist _ _).length_le
      (dedupKeep_sublist _ _).length_le

/-- Witness for C5 at the scenario-A fixtures. -/
theorem C5_witness :
    (combine_search_results scnA_P1 scnA_P2).total_found
        = (combine_search_results scnA_P1 scnA_P2).«matches».length
      ∧ (combine_search_results scnA_P1 scnA_P2).total_found
        ≤ scnA_P1.total_found + scnA_P2.total_found :=
  C5_total_found scnA_P1 scnA_P2 rfl rfl

/-- Claim C7: with an absent or empty credential, each adapter returns
immediately with no matches, `total_found = 0` and no error, regardless
of what any network call would have produced. -/
theorem C7_disabled_providers (kS kT : Option String)
    (postS : Except String (HttpResponse SerpData))
    (postT : Except String (HttpResponse ToolData))
    (crawl_posts : String → Except String (HttpResponse CrawlData))
    (hS : falsyKey kS = true) (hT : falsyKey kT = true) :
    search_similar_images_serpapi kS postS =
        { «matches» := [], total_found := 0, source := "serpapi", error := none }
      ∧ search_similar_images_toolhouse kT postT crawl_posts =
        { «matches» := [], total_found := 0, source := "toolhouse", error := none } := by
  constructor
  · simp [search_similar_images_serpapi, hS]
  · simp [search_similar_images_toolhouse, hT]

/-- Witness for C7: unset serpapi key, empty toolhouse key. -/
theorem C7_witness :
    search_similar_images_serpapi none (Except.error "never sent") =
        { «matches» := [], total_found := 0, source := "serpapi", error := none }
      ∧ search_similar_images_toolhouse (some "") (Except.error "never sent")
          (fun _ => Except.error "never sent") =
        { «matches» := [], total_found := 0, source := "toolhouse", error := none } :=
  C7_disabled_providers none (some "")
    (Except.error "never sent") (Except.error "never sent")
    (fun _ => Except.error "never sent") (by decide) (by decide)

/-- Claim C8, counterexample: with a credential set, a serpapi call that
comes back with HTTP status 500 and a well-formed JSON body yields a
result with *no* error set (and no matches) — the serpapi adapter never
inspects `response.status_code`, so "non-success status code ⇒ error set"
fails for it. -/
theorem C8_counterexample_serpapi_ignores_status :
    search_similar_images_serpapi (some "key")
        (Except.ok { status_code := 500, json := Except.ok { image_results := none } }) =
      { «matches» := [], total_found := 0, source := "serpapi", error := none } := by
  decide

/-- Claim C8 as amended: both adapters return normally (they are total
functions) with empty matches, `total_found = 0` and a human-readable
`error` on a network exception and on a body that fails to parse as JSON;
the toolhouse adapter additionally does so on a non-200 status code, but
the serpapi adapter ignores the status code (a non-success status with a
parseable JSON body produces no error — see the counterexample). -/
theorem C8_amended_failures_captured (key : Option String)
    (hkey : falsyKey key = false) :
    (∀ e, search_similar_images_serpapi key (Except.error e) =
        { «matches» := [], total_found := 0, source := "serpapi", error := some e })
      ∧ (∀ st e, search_similar_images_serpapi key
            (Except.ok { status_code := st, json := Except.error e }) =
        { «matches» := [], total_found := 0, source := "serpapi", error := some e })
      ∧ (∀ e crawl_posts, search_similar_images_toolhouse key (Except.error e) crawl_posts =
        { «matches» := [], total_found := 0, source := "toolhouse", error := some e })
      ∧ (∀ st body crawl_posts, st ≠ 200 →
          search_similar_images_toolhouse key
              (Except.ok { status_code := st, json := body }) crawl_posts =
        { «matches» := [], total_found := 0, source := "toolhouse",
          error := some ("Toolhouse API error: " ++ toString st) })
      ∧ (∀ e crawl_posts, search_similar_images_toolhouse key
            (Except.ok { status_code := 200, json := Except.error e }) crawl_posts =
        { «matches» := [], total_found := 0, source := "toolhouse", error := some e }) := by
  refine ⟨?_, ?_, ?_, ?_, ?_⟩
  · intro e
    simp [search_similar_images_serpapi, hkey]
  · intro st e
    simp [search_similar_images_serpapi, hkey]
  · intro e crawl_posts
    simp [search_similar_images_toolhouse, hkey]
  · intro st body crawl_posts hst
    have hne : (st != 200) = true := by simpa using hst
    simp [search_similar_images_toolhouse, hkey, hne]
  · intro e crawl_posts
    simp [search_similar_images_toolhouse, hkey]

/-- Witness for the amended C8: a network exception on serpapi and a 503
status on toolhouse. -/
theorem C8_witness :
    search_similar_images_serpapi (some "key") (Except.error "connection refused") =
        { «matches» := [], total_found := 0, source := "serpapi",
          error := some "connection refused" }
      ∧ search_similar_images_toolhouse (some "key")
          (Except.ok { status_code := 503, json := Except.error "never parsed" })
          (fun _ => Except.error "never sent") =
        { «matches» := [], total_found := 0, source := "toolhouse",
          error := some ("Toolhouse API error: " ++ toString 503) } := by
  refine ⟨(C8_amended_failures_captured (some "key") (by decide)).1 "connection refused", ?_⟩
  exact (C8_amended_failures_captured (some "key") (by decide)).2.2.2.1 503
    (Except.error "never parsed") (fun _ => Except.error "never sent") (by decide)

/-- Claim C9: every match produced by the serpapi adapter has
`similarity = "High"` and `search_engine = "Google (SerpAPI)"`, whatever
the provider response contained; hence each such record ranks in the top
similarity tier (`sort_key = 0`). -/
theorem C9_serpapi_matches_high (key : Option String)
    (post : Except String (HttpResponse SerpData)) (m : MatchRecord)
    (hm : m ∈ (search_similar_images_serpapi key post).«matches») :
    m.similarity = "High" ∧ m.search_engine = "Google (SerpAPI)"
      ∧ sort_key m = 0 := by
  have hfields : m.similarity = "High" ∧ m.search_engine = "Google (SerpAPI)" := by
    unfold search_similar_images_serpapi at hm
    split at hm
    · simp at hm
    · split at hm
      · simp at hm
      · split at hm
        · simp at hm
        · simp only at hm
          split at hm
          · rcases List.mem_map.mp hm with ⟨r, _, rfl⟩
            exact ⟨rfl, rfl⟩
          · simp at hm
  refine ⟨hfields.1, hfields.2, ?_⟩
  simp [sort_key, hfields.1]

/-- Witness for C9 at a concrete response with one entry. -/
theorem C9_witness :
    serpMatch serpItemSample ∈ (search_similar_images_serpapi (some "key")
        (Except.ok
          { status_code := 200
            json := Except.ok { image_results := some [serpItemSample] } })).«matches»
      ∧ (serpMatch serpItemSample).similarity = "High"
      ∧ (serpMatch serpItemSample).search_engine = "Google (SerpAPI)"
      ∧ sort_key (serpMatch serpItemSample) = 0 := by
  refine ⟨by decide, ?_⟩
  exact C9_serpapi_matches_high (some "key")
    (Except.ok
      { status_code := 200
        json := Except.ok { image_results := some [serpItemSample] } })
    (serpMatch serpItemSample) (by decide)
